import Mathlib

/-!
Verification development for the `hello-solana` escrow program.

The Rust sources embedded here are `src/state.rs` (the `Escrow` record and
its `Pack` codec), `src/error.rs` (the `EscrowError` taxonomy) and
`src/process.rs` (the `Processor` with the InitEscrow and Exchange handlers).

Modelling conventions:
- byte buffers are `List Nat` (each entry intended `< 256`);
- 32-byte public keys are `List Nat` of length 32, compared structurally,
  mirroring `Pubkey` equality;
- `u64` values are `Nat` with explicit bounds `≤ u64MAX` where overflow
  matters (`checked_add`);
- fallible Rust paths returning `Result<_, ProgramError>` become
  `Except ProgramError _`;
- cross-program invocations (`invoke` / `invoke_signed`) are modelled as a
  trace of emitted token-ledger instructions carried in the success value;
  an error discards the trace, matching the host's all-or-nothing
  transaction semantics described by the program's runtime.
-/

namespace HelloSolana

set_option maxRecDepth 100000

instance {ε α : Type} [DecidableEq ε] [DecidableEq α] :
    DecidableEq (Except ε α) := fun x y =>
  match x, y with
  | .ok a, .ok b =>
      if h : a = b then .isTrue (by rw [h])
      else .isFalse (by intro he; cases he; exact h rfl)
  | .error a, .error b =>
      if h : a = b then .isTrue (by rw [h])
      else .isFalse (by intro he; cases he; exact h rfl)
  | .ok _, .error _ => .isFalse (by intro he; cases he)
  | .error _, .ok _ => .isFalse (by intro he; cases he)

/-- `u64::MAX`. -/
def u64MAX : Nat := 2 ^ 64 - 1

/-- `u64::checked_add`: `some (a + b)` unless the sum leaves the `u64` range. -/
def checked_add (a b : Nat) : Option Nat :=
  if a + b ≤ u64MAX then some (a + b) else none

/-- `u64::from_le_bytes` on an 8-byte little-endian buffer (0 on any other shape,
which the callers below never produce). -/
def u64FromLeBytes : List Nat → Nat
  | [b0, b1, b2, b3, b4, b5, b6, b7] =>
      b0 + b1 * 256 + b2 * 256 ^ 2 + b3 * 256 ^ 3 + b4 * 256 ^ 4 +
        b5 * 256 ^ 5 + b6 * 256 ^ 6 + b7 * 256 ^ 7
  | _ => 0

/-- `u64::to_le_bytes`: the 8 little-endian base-256 digits of `n`. -/
def u64LeBytes (n : Nat) : List Nat :=
  [n % 256, n / 256 % 256, n / 256 ^ 2 % 256, n / 256 ^ 3 % 256,
   n / 256 ^ 4 % 256, n / 256 ^ 5 % 256, n / 256 ^ 6 % 256, n / 256 ^ 7 % 256]

/-- `solana_program::program_error::ProgramError`, restricted to the variants the
embedded code can produce; `custom n` is `ProgramError::Custom(n)`. -/
inductive ProgramError where
  | invalidAccountData
  | missingRequiredSignature
  | incorrectProgramId
  | notEnoughAccountKeys
  | uninitializedAccount
  | custom (code : Nat)
deriving DecidableEq, Repr

/-- `EscrowError` from `src/error.rs`. -/
inductive EscrowError where
  | invalidInstruction
  | notRentExempt
  | invalidAmount
  | amountOverflow
deriving DecidableEq, Repr

/-- The discriminant of an `EscrowError`, mirroring `e as u32` in `src/error.rs`. -/
def EscrowError.code : EscrowError → Nat
  | .invalidInstruction => 0
  | .notRentExempt => 1
  | .invalidAmount => 2
  | .amountOverflow => 3

/-- `impl From<EscrowError> for ProgramError`: `ProgramError::Custom(e as u32)`. -/
def EscrowError.toProgramError (e : EscrowError) : ProgramError :=
  .custom e.code

/-- The `Escrow` record from `src/state.rs`. Public keys are 32-byte lists. -/
structure Escrow where
  is_initialized : Bool
  initializer_pubkey : List Nat
  temp_token_account_pubkey : List Nat
  initializer_token_to_receive_account_pubkey : List Nat
  expected_ammount : Nat
deriving DecidableEq, Repr

/-- `Escrow::LEN = 1 + 32 + 32 + 32 + 8`. -/
def Escrow.LEN : Nat := 1 + 32 + 32 + 32 + 8

/-- `Escrow::unpack_from_slice` from `src/state.rs`: the first byte decodes the
`is_initialized` flag (0 ↦ false, 1 ↦ true, anything else ↦
`InvalidAccountData`); bytes 1–32, 33–64 and 65–96 are the three raw public
keys, and bytes 97–104 the little-endian `expected_ammount`. It is only ever
invoked on buffers of length `Escrow::LEN` (the `Pack` wrappers below). -/
def Escrow.unpack_from_slice (src : List Nat) : Except ProgramError Escrow :=
  if src.take 1 = [0] then .ok
      { is_initialized := false
        initializer_pubkey := (src.drop 1).take 32
        temp_token_account_pubkey := (src.drop 33).take 32
        initializer_token_to_receive_account_pubkey := (src.drop 65).take 32
        expected_ammount := u64FromLeBytes ((src.drop 97).take 8) }
  else if src.take 1 = [1] then .ok
      { is_initialized := true
        initializer_pubkey := (src.drop 1).take 32
        temp_token_account_pubkey := (src.drop 33).take 32
        initializer_token_to_receive_account_pubkey := (src.drop 65).take 32
        expected_ammount := u64FromLeBytes ((src.drop 97).take 8) }
  else .error .invalidAccountData

/-- `Pack::unpack_unchecked` as provided by `solana_program::program_pack` for
`Escrow`: reject any buffer whose length is not `Escrow::LEN` with
`InvalidAccountData`, then delegate to `unpack_from_slice`. -/
def Escrow.unpack_unchecked (src : List Nat) : Except ProgramError Escrow :=
  if src.length = Escrow.LEN then Escrow.unpack_from_slice src
  else .error .invalidAccountData

/-- `Pack::unpack` for `Escrow`: `unpack_unchecked` plus the `IsInitialized`
gate (`UninitializedAccount` when the flag is false). -/
def Escrow.unpack (src : List Nat) : Except ProgramError Escrow :=
  match Escrow.unpack_unchecked src with
  | .ok e => if e.is_initialized then .ok e else .error .uninitializedAccount
  | .error err => .error err

/-- `Escrow::pack_into_slice` from `src/state.rs`: flag byte, then the three
32-byte keys, then the little-endian amount, 105 bytes in all. -/
def Escrow.pack_into_slice (e : Escrow) : List Nat :=
  (if e.is_initialized then 1 else 0) ::
    (e.initializer_pubkey ++ e.temp_token_account_pubkey ++
      e.initializer_token_to_receive_account_pubkey ++
        u64LeBytes e.expected_ammount)

/-- `Pack::pack` for `Escrow`: refuse a destination buffer whose length is not
`Escrow::LEN`, else overwrite it with `pack_into_slice`. -/
def Escrow.pack (e : Escrow) (dst : List Nat) : Except ProgramError (List Nat) :=
  if dst.length = Escrow.LEN then .ok (Escrow.pack_into_slice e)
  else .error .invalidAccountData

/-- Well-formedness of an `Escrow` value as granted by the Rust types:
each `Pubkey` is exactly 32 bytes and the amount is a `u64`. -/
def Escrow.Wf (e : Escrow) : Prop :=
  e.initializer_pubkey.length = 32 ∧
  (∀ b ∈ e.initializer_pubkey, b < 256) ∧
  e.temp_token_account_pubkey.length = 32 ∧
  (∀ b ∈ e.temp_token_account_pubkey, b < 256) ∧
  e.initializer_token_to_receive_account_pubkey.length = 32 ∧
  (∀ b ∈ e.initializer_token_to_receive_account_pubkey, b < 256) ∧
  e.expected_ammount ≤ u64MAX

instance (e : Escrow) : Decidable e.Wf := by
  unfold Escrow.Wf; infer_instance

/-- The slice of `solana_program::account_info::AccountInfo` the processor
reads: the address, the signer flag, the owning program, the lamport balance
and the account data bytes. -/
structure AccountInfo where
  key : List Nat
  is_signer : Bool
  owner : List Nat
  lamports : Nat
  data : List Nat
deriving DecidableEq, Repr

/-- The token-ledger instructions `src/process.rs` builds via
`spl_token::instruction`, with the fields the builders receive:
`set_authority(token_program, account, new_authority, current_authority)`,
`transfer(token_program, source, dest, authority, amount)` and
`close_account(token_program, account, dest, authority)`. -/
inductive TokenInstruction where
  | setAuthority (token_program account new_authority current_authority : List Nat)
  | transfer (token_program source dest authority : List Nat) (amount : Nat)
  | closeAccount (token_program account dest authority : List Nat)
deriving DecidableEq, Repr

/-- Modelled from the spec: the external token ledger's account codec (§6, an
out-of-scope collaborator present only as `spl_token::state::Account::unpack`
in `src/process.rs`). A token account image is 165 bytes and its balance is
the little-endian u64 at bytes 64–71; any other length is malformed account
data. The model exposes exactly the field the processor reads, the balance. -/
def TokenAccount.unpack (data : List Nat) : Except ProgramError Nat :=
  if data.length = 165 then .ok (u64FromLeBytes ((data.drop 64).take 8))
  else .error .invalidAccountData

/-- Success state of `process_init_escrow`: the bytes written back into the
escrow storage account and the trace of token-ledger instructions invoked. -/
structure InitOk where
  escrow_data : List Nat
  instructions : List TokenInstruction
deriving DecidableEq, Repr

/-- `Processor::process_init_escrow` from `src/process.rs`.

External collaborators enter as parameters: `spl_token_id` is the token
ledger's program id (`spl_token::id()`), `rent_is_exempt` the rent sysvar's
balance-vs-data-length predicate (`Rent::is_exempt`, read from the rent
account supplied at position 4), and `fpa` is
`Pubkey::find_program_address(&[b"escrow"], program_id)` returning the derived
address and bump seed.

The account list and check order mirror the source: initializer (signer
check), temp token account, token-to-receive account (ownership check), escrow
account, rent account (rent-exemption check), then `unpack_unchecked`, field
population, `pack`, and finally the token program account and the
`set_authority` invocation handing the temp account to the derived address. -/
def processInitEscrow (spl_token_id : List Nat)
    (rent_is_exempt : Nat → Nat → Bool)
    (fpa : List Nat → List Nat × Nat)
    (accounts : List AccountInfo) (amount : Nat) (program_id : List Nat) :
    Except ProgramError InitOk :=
  match accounts with
  | [] => .error .notEnoughAccountKeys
  | initializer :: rest =>
    if initializer.is_signer = false then .error .missingRequiredSignature
    else
      match rest with
      | temp_token_account :: token_to_receive_account :: rest2 =>
        if token_to_receive_account.owner ≠ spl_token_id then
          .error .incorrectProgramId
        else
          match rest2 with
          | escrow_account :: _rent_account :: rest3 =>
            if rent_is_exempt escrow_account.lamports escrow_account.data.length
                = false then
              .error EscrowError.notRentExempt.toProgramError
            else
              match Escrow.unpack_unchecked escrow_account.data with
              | .error err => .error err
              | .ok escrow_info =>
                let escrow_info' : Escrow :=
                  { escrow_info with
                    is_initialized := true
                    initializer_pubkey := initializer.key
                    temp_token_account_pubkey := temp_token_account.key
                    initializer_token_to_receive_account_pubkey :=
                      token_to_receive_account.key
                    expected_ammount := amount }
                match Escrow.pack escrow_info' escrow_account.data with
                | .error err => .error err
                | .ok new_data =>
                  match rest3 with
                  | token_program :: _ =>
                    let pda := (fpa program_id).fst
                    .ok { escrow_data := new_data
                          instructions :=
                            [.setAuthority token_program.key
                              temp_token_account.key pda initializer.key] }
                  | [] => .error .notEnoughAccountKeys
          | _ => .error .notEnoughAccountKeys
      | _ => .error .notEnoughAccountKeys

/-- Success state of `process_exchange`: the trace of token-ledger
instructions invoked, the initializer main account's new lamport balance, and
the zeroed escrow storage balance and data. -/
structure ExchangeOk where
  instructions : List TokenInstruction
  initializer_main_lamports : Nat
  escrow_lamports : Nat
  escrow_data : List Nat
deriving DecidableEq, Repr

/-- `Processor::process_exchange` from `src/process.rs`.

`fpa` is `Pubkey::find_program_address(&[b"escrow"], program_id)` as in
`processInitEscrow`. The account list and step order mirror the source:
signer check; taker send / taker receive / temp (custody) / initializer main /
initializer receive / escrow / token program / pda accounts; the custody
balance is read via the token-ledger codec and compared with the declared
`amount` (`InvalidAmount` on mismatch); the escrow record is `unpack`ed and
its stored initializer and receive addresses compared with the supplied
accounts (`InvalidAccountData` on mismatch); then the two transfers and the
close-account instruction are issued, the escrow account's lamports are
credited to the initializer main account with `checked_add`
(`AmountOverflow` on overflow), and the escrow storage is zeroed. -/
def processExchange (fpa : List Nat → List Nat × Nat)
    (accounts : List AccountInfo) (amount : Nat) (program_id : List Nat) :
    Except ProgramError ExchangeOk :=
  match accounts with
  | [] => .error .notEnoughAccountKeys
  | signer :: rest =>
    if signer.is_signer = false then .error .missingRequiredSignature
    else
      match rest with
      | taker_send_token_account :: taker_receive_token_account ::
          temp_token_account :: initializer_main_account ::
          initializer_to_receive_account :: escrow_account ::
          token_program :: _pda_account :: _ =>
        match TokenAccount.unpack temp_token_account.data with
        | .error err => .error err
        | .ok custody_balance =>
          if custody_balance ≠ amount then
            .error EscrowError.invalidAmount.toProgramError
          else
            match Escrow.unpack escrow_account.data with
            | .error err => .error err
            | .ok escrow_info =>
              if escrow_info.initializer_pubkey ≠ initializer_main_account.key
                then .error .invalidAccountData
              else if escrow_info.initializer_token_to_receive_account_pubkey
                  ≠ initializer_to_receive_account.key then
                .error .invalidAccountData
              else
                let pda := (fpa program_id).fst
                let transfer_to_initializer : TokenInstruction :=
                  .transfer token_program.key taker_send_token_account.key
                    initializer_to_receive_account.key signer.key
                    escrow_info.expected_ammount
                let transfer_to_taker : TokenInstruction :=
                  .transfer token_program.key temp_token_account.key
                    taker_receive_token_account.key pda amount
                let close_temp : TokenInstruction :=
                  .closeAccount token_program.key temp_token_account.key
                    initializer_main_account.key pda
                match checked_add initializer_main_account.lamports
                    escrow_account.lamports with
                | none => .error EscrowError.amountOverflow.toProgramError
                | some new_lamports =>
                  .ok { instructions :=
                          [transfer_to_initializer, transfer_to_taker,
                            close_temp]
                        initializer_main_lamports := new_lamports
                        escrow_lamports := 0
                        escrow_data := [] }
      | _ => .error .notEnoughAccountKeys

/-! ### Supporting lemmas -/

theorem u64FromLeBytes_u64LeBytes (n : Nat) (h : n ≤ u64MAX) :
    u64FromLeBytes (u64LeBytes n) = n := by
  simp only [u64LeBytes, u64FromLeBytes, u64MAX] at *
  norm_num at *
  omega

theorem u64LeBytes_length (n : Nat) : (u64LeBytes n).length = 8 := by
  simp [u64LeBytes]

theorem take_append_of_length_eq {α : Type} {l₁ l₂ : List α} {n : Nat}
    (h : l₁.length = n) : (l₁ ++ l₂).take n = l₁ := by
  subst h
  simp

theorem drop_append_of_length_eq {α : Type} {l₁ l₂ : List α} {n : Nat}
    (h : l₁.length = n) : (l₁ ++ l₂).drop n = l₂ := by
  subst h
  simp

theorem pack_into_slice_length (e : Escrow) (h : e.Wf) :
    (Escrow.pack_into_slice e).length = Escrow.LEN := by
  obtain ⟨h1, -, h2, -, h3, -, -⟩ := h
  simp [Escrow.pack_into_slice, Escrow.LEN, h1, h2, h3, u64LeBytes_length]

/-- Round-trip at the slice level: unpacking the 105 bytes produced by
`pack_into_slice` recovers the record. -/
theorem unpack_from_slice_pack_into_slice (e : Escrow) (h : e.Wf) :
    Escrow.unpack_from_slice (Escrow.pack_into_slice e) = .ok e := by
  obtain ⟨f, ip, tp, rp, amt⟩ := e
  obtain ⟨h1, -, h2, -, h3, -, h4⟩ := h
  simp only [Escrow.Wf] at h1 h2 h3 h4 ⊢
  have hip : ip.length = 32 := h1
  have htp : tp.length = 32 := h2
  have hrp : rp.length = 32 := h3
  have hdrop1 :
      (Escrow.pack_into_slice ⟨f, ip, tp, rp, amt⟩).tail
        = ip ++ tp ++ rp ++ u64LeBytes amt := by
    simp [Escrow.pack_into_slice]
  have hspan1 : (ip ++ tp ++ rp ++ u64LeBytes amt).take 32 = ip := by
    rw [List.append_assoc, List.append_assoc]
    exact take_append_of_length_eq hip
  have hrest2 : (ip ++ tp ++ rp ++ u64LeBytes amt).drop 32
      = tp ++ rp ++ u64LeBytes amt := by
    rw [List.append_assoc, List.append_assoc]
    rw [drop_append_of_length_eq hip]
    rw [← List.append_assoc]
  have hspan2 : (tp ++ rp ++ u64LeBytes amt).take 32 = tp := by
    rw [List.append_assoc]
    exact take_append_of_length_eq htp
  have hrest3 : (tp ++ rp ++ u64LeBytes amt).drop 32
      = rp ++ u64LeBytes amt := by
    rw [List.append_assoc]
    exact drop_append_of_length_eq htp
  have hspan3 : (rp ++ u64LeBytes amt).take 32 = rp :=
    take_append_of_length_eq hrp
  have hrest4 : (rp ++ u64LeBytes amt).drop 32 = u64LeBytes amt :=
    drop_append_of_length_eq hrp
  have hdrop33 :
      (Escrow.pack_into_slice ⟨f, ip, tp, rp, amt⟩).drop 33
        = tp ++ rp ++ u64LeBytes amt := by
    have h33 : (Escrow.pack_into_slice ⟨f, ip, tp, rp, amt⟩).drop 33
        = ((Escrow.pack_into_slice ⟨f, ip, tp, rp, amt⟩).drop 1).drop 32 := by
      rw [List.drop_drop]
    rw [h33, List.drop_one, hdrop1, hrest2]
  have hdrop65 :
      (Escrow.pack_into_slice ⟨f, ip, tp, rp, amt⟩).drop 65
        = rp ++ u64LeBytes amt := by
    have h65 : (Escrow.pack_into_slice ⟨f, ip, tp, rp, amt⟩).drop 65
        = ((Escrow.pack_into_slice ⟨f, ip, tp, rp, amt⟩).drop 33).drop 32 := by
      rw [List.drop_drop]
    rw [h65, hdrop33, hrest3]
  have hdrop97 :
      (Escrow.pack_into_slice ⟨f, ip, tp, rp, amt⟩).drop 97
        = u64LeBytes amt := by
    have h97 : (Escrow.pack_into_slice ⟨f, ip, tp, rp, amt⟩).drop 97
        = ((Escrow.pack_into_slice ⟨f, ip, tp, rp, amt⟩).drop 65).drop 32 := by
      rw [List.drop_drop]
    rw [h97, hdrop65, hrest4]
  have hamt : ((Escrow.pack_into_slice ⟨f, ip, tp, rp, amt⟩).drop 97).take 8
      = u64LeBytes amt := by
    rw [hdrop97]
    exact List.take_of_length_le (by simp [u64LeBytes_length])
  have hflag : (Escrow.pack_into_slice ⟨f, ip, tp, rp, amt⟩).take 1
      = [if f then 1 else 0] := by
    simp [Escrow.pack_into_slice]
  have hspan1' : List.take 32 (ip ++ (tp ++ (rp ++ u64LeBytes amt))) = ip :=
    take_append_of_length_eq hip
  have hspan2' : List.take 32 (tp ++ (rp ++ u64LeBytes amt)) = tp :=
    take_append_of_length_eq htp
  cases f with
  | false =>
    simp [Escrow.unpack_from_slice, hflag, hdrop1, hdrop33, hdrop65, hamt,
      hspan1, hspan2, hspan3, hspan1', hspan2',
      u64FromLeBytes_u64LeBytes amt h4]
  | true =>
    simp [Escrow.unpack_from_slice, hflag, hdrop1, hdrop33, hdrop65, hamt,
      hspan1, hspan2, hspan3, hspan1', hspan2',
      u64FromLeBytes_u64LeBytes amt h4]

/-- Round-trip through the `Pack` wrapper, which also passes its length
guard. -/
theorem unpack_unchecked_pack_into_slice (e : Escrow) (h : e.Wf) :
    Escrow.unpack_unchecked (Escrow.pack_into_slice e) = .ok e := by
  unfold Escrow.unpack_unchecked
  rw [if_pos (pack_into_slice_length e h)]
  exact unpack_from_slice_pack_into_slice e h

/-! ### Concrete sample values used by witnesses -/

/-- A concrete 32-byte public key with every byte equal to `b`. -/
def pk (b : Nat) : List Nat := List.replicate 32 b

/-- A concrete 165-byte token-ledger account image whose balance field
(bytes 64–71, little-endian) holds `balance`. -/
def tokenAccountData (balance : Nat) : List Nat :=
  List.replicate 64 0 ++ u64LeBytes balance ++ List.replicate 93 0

/-- A concrete initialized escrow record: initializer `pk 11`, custody
`pk 4`, receive account `pk 12`, expected amount 500. -/
def sampleRecord : Escrow :=
  { is_initialized := true
    initializer_pubkey := pk 11
    temp_token_account_pubkey := pk 4
    initializer_token_to_receive_account_pubkey := pk 12
    expected_ammount := 500 }

/-- The 105-byte image of `sampleRecord`. -/
def sampleEscrowData : List Nat := Escrow.pack_into_slice sampleRecord

/-! ### Claims about the record codec -/

/-- C3: for every valid `EscrowRecord` (boolean flag, three 32-byte
addresses, u64 amount), decoding the 105-byte buffer produced by encoding
the record yields exactly the record: `decode (encode r) = ok r`. -/
theorem escrow_decode_encode_roundtrip (e : Escrow) (h : e.Wf) :
    Escrow.unpack_unchecked (Escrow.pack_into_slice e) = .ok e :=
  unpack_unchecked_pack_into_slice e h

theorem escrow_decode_encode_roundtrip_witness :
    sampleRecord.Wf ∧
      Escrow.unpack_unchecked (Escrow.pack_into_slice sampleRecord)
        = .ok sampleRecord :=
  ⟨by decide, escrow_decode_encode_roundtrip sampleRecord (by decide)⟩

/-- C4: on a 105-byte buffer `b0 :: tl`, decoding fails with
`InvalidAccountData` whenever the first byte is neither 0 nor 1; and whenever
the first byte is 0 or 1 it succeeds, reads the flag from that byte, the
next three 32-byte spans as raw addresses, and the trailing 8 bytes as a
little-endian unsigned 64-bit integer. -/
theorem decode_first_byte_behaviour (b0 : Nat) (tl : List Nat)
    (hlen : tl.length = 104) :
    (b0 ≠ 0 → b0 ≠ 1 →
      Escrow.unpack_unchecked (b0 :: tl) = .error .invalidAccountData) ∧
    (b0 = 0 ∨ b0 = 1 →
      Escrow.unpack_unchecked (b0 :: tl) = .ok
        { is_initialized := b0 == 1
          initializer_pubkey := tl.take 32
          temp_token_account_pubkey := (tl.drop 32).take 32
          initializer_token_to_receive_account_pubkey := (tl.drop 64).take 32
          expected_ammount := u64FromLeBytes ((tl.drop 96).take 8) }) := by
  have hlen' : (b0 :: tl).length = Escrow.LEN := by
    simp [hlen, Escrow.LEN]
  have htake : (b0 :: tl).take 1 = [b0] := by simp
  have hd1 : (b0 :: tl).drop 1 = tl := rfl
  have hd33 : (b0 :: tl).drop 33 = tl.drop 32 := rfl
  have hd65 : (b0 :: tl).drop 65 = tl.drop 64 := rfl
  have hd97 : (b0 :: tl).drop 97 = tl.drop 96 := rfl
  constructor
  · intro h0 h1
    unfold Escrow.unpack_unchecked Escrow.unpack_from_slice
    rw [if_pos hlen', htake]
    rw [if_neg (by simp [h0]), if_neg (by simp [h1])]
  · rintro (rfl | rfl)
    · unfold Escrow.unpack_unchecked Escrow.unpack_from_slice
      rw [if_pos hlen', htake, if_pos rfl]
      rw [hd1, hd33, hd65, hd97]
      rfl
    · unfold Escrow.unpack_unchecked Escrow.unpack_from_slice
      rw [if_pos hlen', htake]
      rw [if_neg (by simp), if_pos rfl]
      rw [hd1, hd33, hd65, hd97]
      rfl

theorem decode_first_byte_behaviour_witness :
    Escrow.unpack_unchecked (7 :: List.replicate 104 0)
        = .error .invalidAccountData ∧
      Escrow.unpack_unchecked (1 :: List.replicate 104 0) = .ok
        { is_initialized := true
          initializer_pubkey := List.replicate 32 0
          temp_token_account_pubkey := List.replicate 32 0
          initializer_token_to_receive_account_pubkey := List.replicate 32 0
          expected_ammount := 0 } :=
  ⟨(decode_first_byte_behaviour 7 (List.replicate 104 0) (by decide)).1
      (by decide) (by decide),
    by
      have h := (decode_first_byte_behaviour 1 (List.replicate 104 0)
        (by decide)).2 (Or.inr rfl)
      simpa using h⟩

/-- C5: the decoder is a pure total function of the input bytes: on every
buffer, of any length, it returns either a record or an error value, its only
failures being a malformed length (≠ 105) or an invalid flag byte (neither 0
nor 1); there is no other behaviour. -/
theorem decode_total_function (buf : List Nat) :
    (∃ e, Escrow.unpack_unchecked buf = .ok e) ∨
      (Escrow.unpack_unchecked buf = .error .invalidAccountData ∧
        (buf.length ≠ 105 ∨ (buf.take 1 ≠ [0] ∧ buf.take 1 ≠ [1]))) := by
  unfold Escrow.unpack_unchecked Escrow.unpack_from_slice
  by_cases hl : buf.length = Escrow.LEN
  · rw [if_pos hl]
    by_cases h0 : buf.take 1 = [0]
    · exact Or.inl ⟨_, by rw [if_pos h0]⟩
    · rw [if_neg h0]
      by_cases h1 : buf.take 1 = [1]
      · exact Or.inl ⟨_, by rw [if_pos h1]⟩
      · rw [if_neg h1]
        exact Or.inr ⟨rfl, Or.inr ⟨h0, h1⟩⟩
  · rw [if_neg hl]
    exact Or.inr ⟨rfl, Or.inl (by simpa [Escrow.LEN] using hl)⟩

/-! ### Claims about the Exchange handler -/

/-- C1: on an Exchange invocation whose taker has signed, if the custody
(temp) token account's recorded balance differs from the caller-declared
`amount`, the handler fails with `InvalidAmount` (`Custom 2`). The failure
happens before any transfer is issued: the success trace of token-ledger
instructions is only built on the non-error path, which this invocation
never reaches. -/
theorem exchange_invalid_amount_on_mismatch
    (fpa : List Nat → List Nat × Nat)
    (signer ts tr temp im ir esc tp pda : AccountInfo)
    (rest : List AccountInfo) (amount bal : Nat) (program_id : List Nat)
    (hsig : signer.is_signer = true)
    (hbal : TokenAccount.unpack temp.data = .ok bal)
    (hne : bal ≠ amount) :
    processExchange fpa
        (signer :: ts :: tr :: temp :: im :: ir :: esc :: tp :: pda :: rest)
        amount program_id
      = .error EscrowError.invalidAmount.toProgramError := by
  unfold processExchange
  simp [hsig, hbal, hne]

theorem exchange_invalid_amount_on_mismatch_witness :
    TokenAccount.unpack (tokenAccountData 5) = .ok 5 ∧
      processExchange (fun _ => (pk 9, 255))
          [⟨pk 1, true, pk 0, 10, []⟩, ⟨pk 2, false, pk 7, 0, []⟩,
           ⟨pk 3, false, pk 7, 0, []⟩, ⟨pk 4, false, pk 7, 0, tokenAccountData 5⟩,
           ⟨pk 11, false, pk 0, 50, []⟩, ⟨pk 12, false, pk 7, 0, []⟩,
           ⟨pk 13, false, pk 8, 100, sampleEscrowData⟩,
           ⟨pk 7, false, pk 0, 0, []⟩, ⟨pk 9, false, pk 0, 0, []⟩]
          7 (pk 8)
        = .error EscrowError.invalidAmount.toProgramError :=
  ⟨by decide,
    exchange_invalid_amount_on_mismatch (fun _ => (pk 9, 255))
      ⟨pk 1, true, pk 0, 10, []⟩ ⟨pk 2, false, pk 7, 0, []⟩
      ⟨pk 3, false, pk 7, 0, []⟩ ⟨pk 4, false, pk 7, 0, tokenAccountData 5⟩
      ⟨pk 11, false, pk 0, 50, []⟩ ⟨pk 12, false, pk 7, 0, []⟩
      ⟨pk 13, false, pk 8, 100, sampleEscrowData⟩
      ⟨pk 7, false, pk 0, 0, []⟩ ⟨pk 9, false, pk 0, 0, []⟩
      [] 7 5 (pk 8) rfl (by decide) (by decide)⟩

/-- C2: on an Exchange invocation that reaches the record checks (taker has
signed and the custody balance equals the declared amount), if the stored
`initializer_pubkey` differs from the supplied initializer-main account's
address, or the stored `initializer_token_to_receive_account_pubkey` differs
from the supplied initializer-receive account's address, the handler fails
with `InvalidAccountData`. -/
theorem exchange_invalid_account_data_on_mismatch
    (fpa : List Nat → List Nat × Nat)
    (signer ts tr temp im ir esc tp pda : AccountInfo)
    (rest : List AccountInfo) (amount : Nat) (program_id : List Nat)
    (r : Escrow)
    (hsig : signer.is_signer = true)
    (hbal : TokenAccount.unpack temp.data = .ok amount)
    (hrec : Escrow.unpack esc.data = .ok r)
    (hmis : r.initializer_pubkey ≠ im.key ∨
      r.initializer_token_to_receive_account_pubkey ≠ ir.key) :
    processExchange fpa
        (signer :: ts :: tr :: temp :: im :: ir :: esc :: tp :: pda :: rest)
        amount program_id
      = .error .invalidAccountData := by
  unfold processExchange
  rcases hmis with hm | hm
  · simp [hsig, hbal, hrec, hm]
  · by_cases h1 : r.initializer_pubkey = im.key
    · simp [hsig, hbal, hrec, h1, hm]
    · simp [hsig, hbal, hrec, h1]

theorem exchange_invalid_account_data_on_mismatch_witness :
    TokenAccount.unpack (tokenAccountData 1000) = .ok 1000 ∧
      Escrow.unpack sampleEscrowData = .ok sampleRecord ∧
      sampleRecord.initializer_pubkey ≠ pk 21 ∧
      processExchange (fun _ => (pk 9, 255))
          [⟨pk 1, true, pk 0, 10, []⟩, ⟨pk 2, false, pk 7, 0, []⟩,
           ⟨pk 3, false, pk 7, 0, []⟩,
           ⟨pk 4, false, pk 7, 0, tokenAccountData 1000⟩,
           ⟨pk 21, false, pk 0, 50, []⟩, ⟨pk 12, false, pk 7, 0, []⟩,
           ⟨pk 13, false, pk 8, 100, sampleEscrowData⟩,
           ⟨pk 7, false, pk 0, 0, []⟩, ⟨pk 9, false, pk 0, 0, []⟩]
          1000 (pk 8)
        = .error .invalidAccountData :=
  ⟨by decide, by decide, by decide,
    exchange_invalid_account_data_on_mismatch (fun _ => (pk 9, 255))
      ⟨pk 1, true, pk 0, 10, []⟩ ⟨pk 2, false, pk 7, 0, []⟩
      ⟨pk 3, false, pk 7, 0, []⟩ ⟨pk 4, false, pk 7, 0, tokenAccountData 1000⟩
      ⟨pk 21, false, pk 0, 50, []⟩ ⟨pk 12, false, pk 7, 0, []⟩
      ⟨pk 13, false, pk 8, 100, sampleEscrowData⟩
      ⟨pk 7, false, pk 0, 0, []⟩ ⟨pk 9, false, pk 0, 0, []⟩
      [] 1000 (pk 8) sampleRecord rfl (by decide) (by decide)
      (Or.inl (by decide))⟩

/-- C8: on an Exchange invocation that passes all validation (signer, custody
balance equals the declared `amount`, stored record matches the supplied
initializer accounts) and whose final lamport credit does not overflow, the
handler issues exactly: a transfer of the record's stored `expected_ammount`
from the taker's sending account to the initializer's receive account, then a
transfer of the caller-declared `amount` (the full custody balance) from the
custody account to the taker's receiving account, then the close of the
custody account; the two transferred quantities are independent values. -/
theorem exchange_transfer_amounts
    (fpa : List Nat → List Nat × Nat)
    (signer ts tr temp im ir esc tp pda : AccountInfo)
    (rest : List AccountInfo) (amount : Nat) (program_id : List Nat)
    (r : Escrow)
    (hsig : signer.is_signer = true)
    (hbal : TokenAccount.unpack temp.data = .ok amount)
    (hrec : Escrow.unpack esc.data = .ok r)
    (hinit : r.initializer_pubkey = im.key)
    (hrecv : r.initializer_token_to_receive_account_pubkey = ir.key)
    (hno : im.lamports + esc.lamports ≤ u64MAX) :
    processExchange fpa
        (signer :: ts :: tr :: temp :: im :: ir :: esc :: tp :: pda :: rest)
        amount program_id
      = .ok { instructions :=
                [.transfer tp.key ts.key ir.key signer.key r.expected_ammount,
                 .transfer tp.key temp.key tr.key (fpa program_id).1 amount,
                 .closeAccount tp.key temp.key im.key (fpa program_id).1]
              initializer_main_lamports := im.lamports + esc.lamports
              escrow_lamports := 0
              escrow_data := [] } := by
  unfold processExchange
  simp [hsig, hbal, hrec, hinit, hrecv, checked_add, hno]

theorem exchange_transfer_amounts_witness :
    TokenAccount.unpack (tokenAccountData 1000) = .ok 1000 ∧
      Escrow.unpack sampleEscrowData = .ok sampleRecord ∧
      sampleRecord.expected_ammount = 500 ∧
      processExchange (fun _ => (pk 9, 255))
          [⟨pk 1, true, pk 0, 10, []⟩, ⟨pk 2, false, pk 7, 0, []⟩,
           ⟨pk 3, false, pk 7, 0, []⟩,
           ⟨pk 4, false, pk 7, 0, tokenAccountData 1000⟩,
           ⟨pk 11, false, pk 0, 50, []⟩, ⟨pk 12, false, pk 7, 0, []⟩,
           ⟨pk 13, false, pk 8, 100, sampleEscrowData⟩,
           ⟨pk 7, false, pk 0, 0, []⟩, ⟨pk 9, false, pk 0, 0, []⟩]
          1000 (pk 8)
        = .ok { instructions :=
                  [.transfer (pk 7) (pk 2) (pk 12) (pk 1) 500,
                   .transfer (pk 7) (pk 4) (pk 3) (pk 9) 1000,
                   .closeAccount (pk 7) (pk 4) (pk 11) (pk 9)]
                initializer_main_lamports := 150
                escrow_lamports := 0
                escrow_data := [] } :=
  ⟨by decide, by decide, by decide, by
    have h := exchange_transfer_amounts (fun _ => (pk 9, 255))
      ⟨pk 1, true, pk 0, 10, []⟩ ⟨pk 2, false, pk 7, 0, []⟩
      ⟨pk 3, false, pk 7, 0, []⟩ ⟨pk 4, false, pk 7, 0, tokenAccountData 1000⟩
      ⟨pk 11, false, pk 0, 50, []⟩ ⟨pk 12, false, pk 7, 0, []⟩
      ⟨pk 13, false, pk 8, 100, sampleEscrowData⟩
      ⟨pk 7, false, pk 0, 0, []⟩ ⟨pk 9, false, pk 0, 0, []⟩
      [] 1000 (pk 8) sampleRecord rfl (by decide) (by decide)
      (by decide) (by decide) (by decide)
    simpa using h⟩

/-- C9: in the final step of Exchange (all earlier validation passed), the
escrow storage account's lamport balance is added to the initializer-main
account's balance with checked 64-bit addition: if the sum exceeds `u64::MAX`
the handler fails with `AmountOverflow` (`Custom 3`) and returns no mutated
state, so neither balance changes under the host's all-or-nothing
transaction semantics; otherwise the initializer-main balance becomes the
sum, the escrow storage balance becomes 0 and its data is cleared to the
empty buffer. -/
theorem exchange_rent_reclaim_checked_add
    (fpa : List Nat → List Nat × Nat)
    (signer ts tr temp im ir esc tp pda : AccountInfo)
    (rest : List AccountInfo) (amount : Nat) (program_id : List Nat)
    (r : Escrow)
    (hsig : signer.is_signer = true)
    (hbal : TokenAccount.unpack temp.data = .ok amount)
    (hrec : Escrow.unpack esc.data = .ok r)
    (hinit : r.initializer_pubkey = im.key)
    (hrecv : r.initializer_token_to_receive_account_pubkey = ir.key) :
    (u64MAX < im.lamports + esc.lamports →
      processExchange fpa
          (signer :: ts :: tr :: temp :: im :: ir :: esc :: tp :: pda :: rest)
          amount program_id
        = .error EscrowError.amountOverflow.toProgramError) ∧
    (im.lamports + esc.lamports ≤ u64MAX →
      processExchange fpa
          (signer :: ts :: tr :: temp :: im :: ir :: esc :: tp :: pda :: rest)
          amount program_id
        = .ok { instructions :=
                  [.transfer tp.key ts.key ir.key signer.key
                     r.expected_ammount,
                   .transfer tp.key temp.key tr.key (fpa program_id).1 amount,
                   .closeAccount tp.key temp.key im.key (fpa program_id).1]
                initializer_main_lamports := im.lamports + esc.lamports
                escrow_lamports := 0
                escrow_data := [] }) := by
  constructor
  · intro hov
    have hn : ¬ (im.lamports + esc.lamports ≤ u64MAX) := by omega
    unfold processExchange
    simp [hsig, hbal, hrec, hinit, hrecv, checked_add, hn]
  · intro hno
    unfold processExchange
    simp [hsig, hbal, hrec, hinit, hrecv, checked_add, hno]

theorem exchange_rent_reclaim_checked_add_witness :
    u64MAX < u64MAX + 100 ∧
      processExchange (fun _ => (pk 9, 255))
          [⟨pk 1, true, pk 0, 10, []⟩, ⟨pk 2, false, pk 7, 0, []⟩,
           ⟨pk 3, false, pk 7, 0, []⟩,
           ⟨pk 4, false, pk 7, 0, tokenAccountData 1000⟩,
           ⟨pk 11, false, pk 0, u64MAX, []⟩, ⟨pk 12, false, pk 7, 0, []⟩,
           ⟨pk 13, false, pk 8, 100, sampleEscrowData⟩,
           ⟨pk 7, false, pk 0, 0, []⟩, ⟨pk 9, false, pk 0, 0, []⟩]
          1000 (pk 8)
        = .error EscrowError.amountOverflow.toProgramError :=
  ⟨by simp [u64MAX],
    (exchange_rent_reclaim_checked_add (fun _ => (pk 9, 255))
      ⟨pk 1, true, pk 0, 10, []⟩ ⟨pk 2, false, pk 7, 0, []⟩
      ⟨pk 3, false, pk 7, 0, []⟩ ⟨pk 4, false, pk 7, 0, tokenAccountData 1000⟩
      ⟨pk 11, false, pk 0, u64MAX, []⟩ ⟨pk 12, false, pk 7, 0, []⟩
      ⟨pk 13, false, pk 8, 100, sampleEscrowData⟩
      ⟨pk 7, false, pk 0, 0, []⟩ ⟨pk 9, false, pk 0, 0, []⟩
      [] 1000 (pk 8) sampleRecord rfl (by decide) (by decide)
      (by decide) (by decide)).1 (by simp [u64MAX])⟩

/-! ### Claims about Init-once, ownership checks and the unused custody
field -/

/-- C6: `process_init_escrow` decodes the escrow storage with
`unpack_unchecked` and never tests `is_initialized`, so an Init invocation
whose storage account already holds a record with `is_initialized = true`
(here the image of `sampleRecord`) succeeds and overwrites it with a fresh
record. This evaluates the handler at such an input: the claim (and the
spec's once-per-account lifecycle) say this invocation must not succeed. -/
theorem init_overwrites_initialized_record :
    processInitEscrow (pk 7) (fun _ _ => true) (fun _ => (pk 9, 255))
        [⟨pk 1, true, pk 0, 10, []⟩, ⟨pk 2, false, pk 7, 5, []⟩,
         ⟨pk 3, false, pk 7, 5, []⟩,
         ⟨pk 14, false, pk 8, 100, sampleEscrowData⟩,
         ⟨pk 5, false, pk 0, 1, []⟩, ⟨pk 7, false, pk 0, 1, []⟩]
        600 (pk 8)
      = .ok { escrow_data := Escrow.pack_into_slice
                { is_initialized := true
                  initializer_pubkey := pk 1
                  temp_token_account_pubkey := pk 2
                  initializer_token_to_receive_account_pubkey := pk 3
                  expected_ammount := 600 }
              instructions := [.setAuthority (pk 7) (pk 2) (pk 9) (pk 1)] } := by
  decide

/-- C7 counterexample: a complete Exchange invocation in which the custody
(temp) token account is owned by `pk 6`, which is not the token-ledger
program (the supplied token-program account has key `pk 7`), yet the handler
performs no ownership check and succeeds instead of failing with
`IncorrectProgramId`. -/
theorem exchange_accepts_unchecked_custody_owner :
    processExchange (fun _ => (pk 9, 255))
        [⟨pk 1, true, pk 0, 10, []⟩, ⟨pk 2, false, pk 7, 0, []⟩,
         ⟨pk 3, false, pk 7, 0, []⟩,
         ⟨pk 4, false, pk 6, 0, tokenAccountData 1000⟩,
         ⟨pk 11, false, pk 0, 50, []⟩, ⟨pk 12, false, pk 7, 0, []⟩,
         ⟨pk 13, false, pk 8, 100, sampleEscrowData⟩,
         ⟨pk 7, false, pk 0, 0, []⟩, ⟨pk 9, false, pk 0, 0, []⟩]
        1000 (pk 8)
      = .ok { instructions :=
                [.transfer (pk 7) (pk 2) (pk 12) (pk 1) 500,
                 .transfer (pk 7) (pk 4) (pk 3) (pk 9) 1000,
                 .closeAccount (pk 7) (pk 4) (pk 11) (pk 9)]
              initializer_main_lamports := 150
              escrow_lamports := 0
              escrow_data := [] } := by
  decide

/-- C7 as amended: the only token-ledger ownership check in the program is
performed by Init on the initializer receive account, before any mutation:
if that account's owner is not the token-ledger program, Init fails with
`IncorrectProgramId`. The custody (temp) token account's owner is not
checked in Init, and Exchange checks no account's owner at all. -/
theorem init_receive_account_ownership_checked
    (spl_token_id : List Nat) (rent_is_exempt : Nat → Nat → Bool)
    (fpa : List Nat → List Nat × Nat)
    (initializer temp recv : AccountInfo) (rest : List AccountInfo)
    (amount : Nat) (program_id : List Nat)
    (hsig : initializer.is_signer = true)
    (hown : recv.owner ≠ spl_token_id) :
    processInitEscrow spl_token_id rent_is_exempt fpa
        (initializer :: temp :: recv :: rest) amount program_id
      = .error .incorrectProgramId := by
  unfold processInitEscrow
  simp [hsig, hown]

theorem init_receive_account_ownership_checked_witness :
    (pk 5 : List Nat) ≠ pk 7 ∧
      processInitEscrow (pk 7) (fun _ _ => true) (fun _ => (pk 9, 255))
          [⟨pk 1, true, pk 0, 10, []⟩, ⟨pk 2, false, pk 7, 5, []⟩,
           ⟨pk 3, false, pk 5, 5, []⟩,
           ⟨pk 14, false, pk 8, 100, List.replicate 105 0⟩,
           ⟨pk 5, false, pk 0, 1, []⟩, ⟨pk 7, false, pk 0, 1, []⟩]
          600 (pk 8)
        = .error .incorrectProgramId :=
  ⟨by decide,
    init_receive_account_ownership_checked (pk 7) (fun _ _ => true)
      (fun _ => (pk 9, 255)) ⟨pk 1, true, pk 0, 10, []⟩
      ⟨pk 2, false, pk 7, 5, []⟩ ⟨pk 3, false, pk 5, 5, []⟩
      [⟨pk 14, false, pk 8, 100, List.replicate 105 0⟩,
       ⟨pk 5, false, pk 0, 1, []⟩, ⟨pk 7, false, pk 0, 1, []⟩]
      600 (pk 8) rfl (by decide)⟩

/-- C10: Exchange never compares the supplied custody (temp) token account's
address with the record's stored `temp_token_account_pubkey`: two Exchange
invocations whose escrow storage buffers differ only in that stored field
(here the images of `r` and of `r` with the field replaced by `k`) produce
identical results — the same checks pass or fail and the same transfers are
issued — so any token account can occupy the custody position regardless of
what was recorded at Init time. -/
theorem exchange_ignores_stored_custody_field
    (fpa : List Nat → List Nat × Nat)
    (signer ts tr temp im ir esc tp pda : AccountInfo)
    (rest : List AccountInfo) (amount : Nat) (program_id : List Nat)
    (r : Escrow) (k : List Nat)
    (hr : r.Wf) (hk : k.length = 32) (hkb : ∀ b ∈ k, b < 256) :
    processExchange fpa
        (signer :: ts :: tr :: temp :: im :: ir ::
          { esc with data := Escrow.pack_into_slice r } :: tp :: pda :: rest)
        amount program_id
      = processExchange fpa
          (signer :: ts :: tr :: temp :: im :: ir ::
            { esc with data := Escrow.pack_into_slice { r with temp_token_account_pubkey := k } } ::
              tp :: pda :: rest)
          amount program_id := by
  have hr2 : ({ r with temp_token_account_pubkey := k } : Escrow).Wf := by
    obtain ⟨h1, h1b, h2, h2b, h3, h3b, h4⟩ := hr
    exact ⟨h1, h1b, hk, hkb, h3, h3b, h4⟩
  have u1 := unpack_unchecked_pack_into_slice r hr
  have u2 := unpack_unchecked_pack_into_slice _ hr2
  obtain ⟨f, ipk, tpk, rpk, amt⟩ := r
  unfold processExchange
  simp only [Escrow.unpack, u1, u2]
  cases f <;> simp

theorem exchange_ignores_stored_custody_field_witness :
    sampleRecord.Wf ∧ (pk 30 : List Nat).length = 32 ∧
      processExchange (fun _ => (pk 9, 255))
          [⟨pk 1, true, pk 0, 10, []⟩, ⟨pk 2, false, pk 7, 0, []⟩,
           ⟨pk 3, false, pk 7, 0, []⟩,
           ⟨pk 4, false, pk 7, 0, tokenAccountData 1000⟩,
           ⟨pk 11, false, pk 0, 50, []⟩, ⟨pk 12, false, pk 7, 0, []⟩,
           ⟨pk 13, false, pk 8, 100,
             Escrow.pack_into_slice sampleRecord⟩,
           ⟨pk 7, false, pk 0, 0, []⟩, ⟨pk 9, false, pk 0, 0, []⟩]
          1000 (pk 8)
        = processExchange (fun _ => (pk 9, 255))
            [⟨pk 1, true, pk 0, 10, []⟩, ⟨pk 2, false, pk 7, 0, []⟩,
             ⟨pk 3, false, pk 7, 0, []⟩,
             ⟨pk 4, false, pk 7, 0, tokenAccountData 1000⟩,
             ⟨pk 11, false, pk 0, 50, []⟩, ⟨pk 12, false, pk 7, 0, []⟩,
             ⟨pk 13, false, pk 8, 100,
               Escrow.pack_into_slice
                 { sampleRecord with temp_token_account_pubkey := pk 30 }⟩,
             ⟨pk 7, false, pk 0, 0, []⟩, ⟨pk 9, false, pk 0, 0, []⟩]
            1000 (pk 8) :=
  ⟨by decide, by decide,
    exchange_ignores_stored_custody_field (fun _ => (pk 9, 255))
      ⟨pk 1, true, pk 0, 10, []⟩ ⟨pk 2, false, pk 7, 0, []⟩
      ⟨pk 3, false, pk 7, 0, []⟩ ⟨pk 4, false, pk 7, 0, tokenAccountData 1000⟩
      ⟨pk 11, false, pk 0, 50, []⟩ ⟨pk 12, false, pk 7, 0, []⟩
      ⟨pk 13, false, pk 8, 100, []⟩ ⟨pk 7, false, pk 0, 0, []⟩
      ⟨pk 9, false, pk 0, 0, []⟩ [] 1000 (pk 8) sampleRecord (pk 30)
      (by decide) (by decide) (by decide)⟩

end HelloSolana
